import Mathlib

/-!
Shallow embedding of the APC PDU monitor/control module
(`Interfaces_SNMP/__init__.py`) and verification of its specification.

The netsnmp transport is abstracted as a pair of oracles: `getResp` answers a
GET for a `(tag, instance)` pair with `some value` or fails (`none`, which in
the source raises an exception out of `netsnmp.snmpget`), and `setResp`
reports whether a SET succeeded (the source wraps `netsnmp.snmpset` results
in `bool(...)` and treats a falsy result as a per-item failure, not an
exception).  Every operation returns its result together with the list of
protocol requests it issued, in order, so that request counts, request order
and the community strings carried by each request can be reasoned about.

Python exceptions are modelled by `Except`: a raised exception aborts the
operation and no partial return value reaches the caller, exactly as a
raising `__init__` or a raising loop body yields no value in the source.
Exception kinds follow the specification's taxonomy: the local
`raise RuntimeError("Incorrect number of names.")` is the taxonomy's
`ValidationError`, a failing transport exchange is `TransportError`, the
`KeyError` from the fixed state table `Outlet.state[...]` on an out-of-table
code is `ProtocolError`, `int(...)` failing to parse is `ValueError`, and a
lookup of an unbound Python local is `NameError`.
-/

namespace APCPDU

/-- One protocol request issued against the transport: a GET of `(tag, iid)`
or a SET of `(tag, iid)` to `val`, each carrying the community string the
source passes to netsnmp. -/
inductive Req where
  | get (tag : String) (iid : String) (community : String)
  | set (tag : String) (iid : String) (val : String) (community : String)
deriving DecidableEq

/-- The abstract transport (netsnmp + agent): GET answers with a scalar or
fails; SET reports success as a boolean, as the source consumes it. -/
structure Transport where
  getResp : String → String → Option String
  setResp : String → String → String → Bool

/-- Exception kinds, named by the specification's error taxonomy (section 7).
`transportError` carries the request that failed, `validationError` the
message of the local `RuntimeError`, `protocolError` the out-of-table state
code (the source's `KeyError` on `Outlet.state`), `valueError` the string
`int(...)` could not parse, `nameError` the unbound Python local name. -/
inductive Err where
  | transportError (req : Req)
  | validationError (msg : String)
  | protocolError (code : Int)
  | valueError (s : String)
  | nameError (localName : String)
deriving DecidableEq

/-- The identity record `PDU._get_ident` populates: six attributes read from
instance 0 of the six identity objects. -/
structure Ident where
  model : String
  serial : String
  hw_rev : String
  fw_rev : String
  date : String
  name : String
deriving DecidableEq

deriving instance DecidableEq for Except

/-- Decimal digit value of a character, as Python `int()` consumes digits:
code points 48-57 carry values 0-9, everything else is not a digit. -/
def digitVal (c : Char) : Option Nat :=
  if 48 ≤ c.toNat ∧ c.toNat ≤ 57 then some (c.toNat - 48) else none

/-- Accumulating decimal parse of a digit run; any non-digit fails. -/
def parseNatAux : List Char → Nat → Option Nat
  | [], acc => some acc
  | c :: cs, acc =>
    match digitVal c with
    | none => none
    | some d => parseNatAux cs (10 * acc + d)

/-- Python `int(s)` on the scalar strings the agent returns: an optional
leading minus sign followed by decimal digits; anything else raises
`ValueError` (modelled as `none`). -/
def pyInt (s : String) : Option Int :=
  match s.data with
  | [] => none
  | '-' :: cs => if cs = [] then none else (parseNatAux cs 0).map (fun n => -(n : Int))
  | cs => (parseNatAux cs 0).map (fun n => (n : Int))

/-- Python `str.split()` with no argument, as `get_outlet_states` and
`get_pending` apply it to the master status strings: split on runs of
whitespace, discarding empty pieces. -/
def pySplit (s : String) : List String :=
  (s.split Char.isWhitespace).filter (fun p => p ≠ "")

/-- Community string carried by a request. -/
def reqCommunity : Req → String
  | .get _ _ c => c
  | .set _ _ _ c => c

/-- Whether a request is a SET. -/
def isSetReq : Req → Bool
  | .set _ _ _ _ => true
  | .get _ _ _ => false

/-- Number of SET requests in a trace. -/
def countSets (l : List Req) : Nat := (l.filter isSetReq).length

/-- Whether a request is a GET of the outlet-config-table-size object. -/
def isSizeGet : Req → Bool
  | .get tag _ _ => tag = "sPDUOutletConfigTableSize"
  | .set _ _ _ _ => false

/-- Number of GETs of the outlet-config-table-size object in a trace. -/
def countSizeGets (l : List Req) : Nat := (l.filter isSizeGet).length

/-- The GET of `sPDUOutletConfigTableSize` instance 0 that opens both
`get_outlet_names` and `set_outlet_names` (source lines 164 and 182). -/
def sizeReq : Req := Req.get "sPDUOutletConfigTableSize" "0" "public"

/-- The per-outlet display-name GET issued by `get_outlet_names`. -/
def nameGetReq (i : Nat) : Req := Req.get "sPDUOutletCtlName" (toString i) "public"

/-- The per-outlet name SET issued by `set_outlet_names`. -/
def nameSetReq (i : Nat) (nm : String) : Req :=
  Req.set "sPDUOutletName" (toString i) nm "private"

/-- `PDU._get_var`: one GET with `Community='public'` hardcoded
(source lines 105-112). -/
def get_var (t : Transport) (tag iid : String) : Except Err String × List Req :=
  let req := Req.get tag iid "public"
  match t.getResp tag iid with
  | some v => (.ok v, [req])
  | none => (.error (.transportError req), [req])

/-- Sequencing of one `get_var` at instance 0 with a continuation: a failing
GET raises, aborting the enclosing method, as in the source. -/
def seqGet {α : Type} (t : Transport) (tag : String)
    (k : String → Except Err α × List Req) : Except Err α × List Req :=
  let (r, tr) := get_var t tag "0"
  match r with
  | .error e => (.error e, tr)
  | .ok v =>
    let (r2, tr2) := k v
    (r2, tr ++ tr2)

/-- The six identity tags read by `PDU._get_ident`, in source order
(lines 118-129). -/
def identTags : List String :=
  ["sPDUIdentModelNumber", "sPDUIdentSerialNumber", "sPDUIdentHardwareRev",
   "sPDUIdentFirmwareRev", "sPDUIdentDateOfManufacture", "sPDUMasterConfigPDUName"]

/-- `PDU._get_ident` (source lines 114-129): six sequential GETs, each at
instance 0; an exception from any GET propagates, so on failure no identity
record is produced. -/
def get_ident (t : Transport) : Except Err Ident × List Req :=
  seqGet t "sPDUIdentModelNumber" fun model =>
  seqGet t "sPDUIdentSerialNumber" fun serial =>
  seqGet t "sPDUIdentHardwareRev" fun hw =>
  seqGet t "sPDUIdentFirmwareRev" fun fw =>
  seqGet t "sPDUIdentDateOfManufacture" fun date =>
  seqGet t "sPDUMasterConfigPDUName" fun nm =>
  (.ok ⟨model, serial, hw, fw, date, nm⟩, [])

/-- A netsnmp Varbind as constructed by the source. -/
structure Varbind where
  tag : String
  iid : String
  val : Option String
deriving DecidableEq

/-- Python local scope of `PDU.set_name` at the point of the `snmpset` call
(source lines 131-142): the Varbind constructed on line 135 is not bound to
any local name, so the scope binds nothing, and looking up the name
`namevar` used on line 139 yields no value — in Python a `NameError`. -/
def set_name_locals : String → Option Varbind := fun _ => none

/-- `PDU.set_name` (source lines 131-142): constructs a Varbind for
`sPDUMasterConfigPDUName` but then calls `snmpset(namevar, ...)` on the
unbound local `namevar`, raising `NameError` before any SET is issued. -/
def set_name (t : Transport) (name : String) : Except Err Bool × List Req :=
  let _constructed : Varbind :=
    { tag := "sPDUMasterConfigPDUName", iid := "0", val := some name }
  match set_name_locals "namevar" with
  | none => (.error (.nameError "namevar"), [])
  | some vb =>
    let req := Req.set vb.tag vb.iid (vb.val.getD "") "private"
    (.ok (t.setResp vb.tag vb.iid (vb.val.getD "")), [req])

/-- `PDU.get_outlet_states` (source lines 144-150): one GET of
`sPDUMasterState` instance 0 through `_get_var`, the response split on
whitespace. -/
def get_outlet_states (t : Transport) : Except Err (List String) × List Req :=
  let (r, tr) := get_var t "sPDUMasterState" "0"
  match r with
  | .error e => (.error e, tr)
  | .ok v => (.ok (pySplit v), tr)

/-- `PDU.get_pending` (source lines 152-158): one GET of `sPDUMasterPending`
instance 0 through `_get_var`, the response split on whitespace. -/
def get_pending (t : Transport) : Except Err (List String) × List Req :=
  let (r, tr) := get_var t "sPDUMasterPending" "0"
  match r with
  | .error e => (.error e, tr)
  | .ok v => (.ok (pySplit v), tr)

/-- The identity-relevant part of `PDU.__init__` (source lines 93-95): when
the `name` argument is truthy (not `None` and not the empty string) the
rename is attempted first, then `_get_ident` runs; a raising `set_name`
aborts construction.  The returned `Ident` carries the attributes the
constructed object would hold, its `name` field being the device-reported
configured name assigned on line 129. -/
def PDU_init (t : Transport) (name : Option String) : Except Err Ident × List Req :=
  match name with
  | none => get_ident t
  | some nm =>
    if nm = "" then get_ident t
    else
      let (r, tr) := set_name t nm
      match r with
      | .error e => (.error e, tr)
      | .ok _ =>
        let (r2, tr2) := get_ident t
        (r2, tr ++ tr2)

/-- The per-index GET loop of `get_outlet_names` (source lines 168-175) over
an explicit list of indices: each index issues one GET of
`sPDUOutletCtlName`; a failing GET raises, aborting the whole call. -/
def getNamesLoop (t : Transport) : List Nat → Except Err (List (Nat × String)) × List Req
  | [] => (.ok [], [])
  | i :: rest =>
    match t.getResp "sPDUOutletCtlName" (toString i) with
    | none => (.error (.transportError (nameGetReq i)), [nameGetReq i])
    | some v =>
      match getNamesLoop t rest with
      | (.ok m, tr) => (.ok ((i, v) :: m), nameGetReq i :: tr)
      | (.error e, tr) => (.error e, nameGetReq i :: tr)

/-- `PDU.get_outlet_names` (source lines 160-176): a fresh GET of the table
size, `int(...)` conversion, then indices `1..N` (Python
`range(int(num_switches))` with `index = n+1`), one GET per outlet name,
aggregated into a 1-based mapping. -/
def get_outlet_names (t : Transport) : Except Err (List (Nat × String)) × List Req :=
  match t.getResp "sPDUOutletConfigTableSize" "0" with
  | none => (.error (.transportError sizeReq), [sizeReq])
  | some s =>
    match pyInt s with
    | none => (.error (.valueError s), [sizeReq])
    | some z =>
      let (r, tr) := getNamesLoop t (List.range' 1 z.toNat)
      (r, sizeReq :: tr)

/-- The per-index SET loop of `set_outlet_names` (source lines 189-197) over
the list of `(index, name)` pairs: each pair issues one SET of
`sPDUOutletName` with `Community='private'`, and the boolean outcome is
recorded per index; a falsy `snmpset` result does not raise, so the loop
always runs to completion. -/
def setNamesLoop (t : Transport) : List (Nat × String) → List (Nat × Bool) × List Req
  | [] => ([], [])
  | (i, nm) :: rest =>
    let ok := t.setResp "sPDUOutletName" (toString i) nm
    let (m, tr) := setNamesLoop t rest
    ((i, ok) :: m, nameSetReq i nm :: tr)

/-- `PDU.set_outlet_names` (source lines 178-198): a fresh GET of the table
size, `int(...)` conversion, the local length precondition
`len(namelist) != num_switches` raising
`RuntimeError("Incorrect number of names.")` before any SET, then one SET
per outlet in index order `1..N` with `val = namelist[n]`. -/
def set_outlet_names (t : Transport) (namelist : List String) :
    Except Err (List (Nat × Bool)) × List Req :=
  match t.getResp "sPDUOutletConfigTableSize" "0" with
  | none => (.error (.transportError sizeReq), [sizeReq])
  | some s =>
    match pyInt s with
    | none => (.error (.valueError s), [sizeReq])
    | some z =>
      if (namelist.length : Int) ≠ z then
        (.error (.validationError "Incorrect number of names."), [sizeReq])
      else
        let (m, tr) := setNamesLoop t ((List.range' 1 z.toNat).zip namelist)
        (.ok m, sizeReq :: tr)

namespace Outlet

/-- The fixed class-level state table of `Outlet` (source lines 218-221), as
the partial lookup Python dict indexing performs: out-of-table codes have no
entry (`KeyError`). -/
def state : Int → Option String := fun c =>
  if c = 1 then some "on"
  else if c = 2 then some "off"
  else if c = 3 then some "rebooting"
  else if c = 4 then some "error"
  else none

/-- `Outlet.get_name` (source lines 238-249): one GET of `sPDUOutletCtlName`
at this outlet's instance with `Community='public'`, returning the name. -/
def get_name (t : Transport) (number : String) : Except Err String × List Req :=
  let req := Req.get "sPDUOutletCtlName" number "public"
  match t.getResp "sPDUOutletCtlName" number with
  | none => (.error (.transportError req), [req])
  | some v => (.ok v, [req])

/-- `Outlet.set_name` (source lines 251-265): one SET of `sPDUOutletName` at
this outlet's instance with `Community='private'`, then a re-read via
`get_name` (whose exception would propagate), returning `bool(result)` of
the SET itself. -/
def set_name (t : Transport) (number : String) (name : String) :
    Except Err Bool × List Req :=
  let req := Req.set "sPDUOutletName" number name "private"
  let result := t.setResp "sPDUOutletName" number name
  let (rn, tr) := get_name t number
  match rn with
  | .error e => (.error e, req :: tr)
  | .ok _ => (.ok result, req :: tr)

/-- `Outlet.get_state` (source lines 267-280): one GET of `sPDUOutletCtl` at
this outlet's instance, `int(...)` conversion, then decoding through the
fixed state table; an out-of-table code raises out of the table lookup. -/
def get_state (t : Transport) (number : String) :
    Except Err (Int × String) × List Req :=
  let req := Req.get "sPDUOutletCtl" number "public"
  match t.getResp "sPDUOutletCtl" number with
  | none => (.error (.transportError req), [req])
  | some s =>
    match pyInt s with
    | none => (.error (.valueError s), [req])
    | some c =>
      match state c with
      | none => (.error (.protocolError c), [req])
      | some lbl => (.ok (c, lbl), [req])

/-- `Outlet.set_state` (source lines 282-302): maps `True` to code 1 and
`False` to code 2, issues one SET of `sPDUOutletCtl` with
`Community='private'`, wraps the result in `bool(...)`, then re-reads the
state with `get_state` and returns the SET result. -/
def set_state (t : Transport) (number : String) (b : Bool) :
    Except Err Bool × List Req :=
  let value : Int := if b then 1 else 2
  let req := Req.set "sPDUOutletCtl" number (toString value) "private"
  let result := t.setResp "sPDUOutletCtl" number (toString value)
  let (rs, tr) := get_state t number
  match rs with
  | .error e => (.error e, req :: tr)
  | .ok _ => (.ok result, req :: tr)

end Outlet

/-- Concrete agent A: a three-outlet device whose outlet-name SETs fail
exactly at outlet 2, whose outlets report state code 2 (off), and whose
identity objects all answer; used to instantiate the theorems below. -/
def agentA : Transport :=
  { getResp := fun tag iid =>
      if tag = "sPDUOutletConfigTableSize" ∧ iid = "0" then some "3"
      else if tag = "sPDUOutletCtlName" then some ("outlet " ++ iid)
      else if tag = "sPDUOutletCtl" then some "2"
      else some ("v-" ++ tag)
  , setResp := fun _ iid _ => iid ≠ "2" }

/-- Concrete agent B: a two-outlet device, a second deployment distinct from
`agentA`. -/
def agentB : Transport :=
  { getResp := fun tag iid =>
      if tag = "sPDUOutletConfigTableSize" ∧ iid = "0" then some "2"
      else if tag = "sPDUOutletCtlName" then some ("port " ++ iid)
      else if tag = "sPDUOutletCtl" then some "1"
      else some ("w-" ++ tag)
  , setResp := fun _ _ _ => true }

/-- Concrete agent C: a two-outlet device whose display-name GET fails at
outlet 2 and whose state object answers the out-of-table code 7. -/
def agentC : Transport :=
  { getResp := fun tag iid =>
      if tag = "sPDUOutletConfigTableSize" ∧ iid = "0" then some "2"
      else if tag = "sPDUOutletCtlName" then
        (if iid = "1" then some "n1" else none)
      else if tag = "sPDUOutletCtl" then some "7"
      else none
  , setResp := fun _ _ _ => true }

/-! ## Helper lemmas about the loops and traces -/

/-- The SET loop of `set_outlet_names` issues one SET per `(index, name)`
pair, in list order, and records per index the boolean the transport
returned for that index's SET. -/
theorem setNamesLoop_eq (t : Transport) (l : List (Nat × String)) :
    setNamesLoop t l =
      (l.map (fun p => (p.1, t.setResp "sPDUOutletName" (toString p.1) p.2)),
       l.map (fun p => nameSetReq p.1 p.2)) := by
  induction l with
  | nil => rfl
  | cons a rest ih =>
    obtain ⟨i, nm⟩ := a
    simp [setNamesLoop, ih]

/-- `Outlet.get_state` always issues exactly the single GET of
`sPDUOutletCtl` at this outlet's instance. -/
theorem get_state_trace (t : Transport) (number : String) :
    (Outlet.get_state t number).2 = [Req.get "sPDUOutletCtl" number "public"] := by
  unfold Outlet.get_state
  rcases t.getResp "sPDUOutletCtl" number with _ | s
  · rfl
  · rcases h : pyInt s with _ | c
    · simp [h]
    · rcases h2 : Outlet.state c with _ | lbl <;> simp [h, h2]

/-- The per-outlet GET loop of `get_outlet_names` never touches the
outlet-config-table-size object. -/
theorem getNamesLoop_no_size_gets (t : Transport) (l : List Nat) :
    countSizeGets (getNamesLoop t l).2 = 0 := by
  induction l with
  | nil => rfl
  | cons i rest ih =>
    unfold getNamesLoop
    rcases t.getResp "sPDUOutletCtlName" (toString i) with _ | v
    · simp [countSizeGets, nameGetReq, isSizeGet]
    · rcases h : getNamesLoop t rest with ⟨r, tr⟩
      rcases r with e | m <;>
        simp_all [countSizeGets, nameGetReq, isSizeGet, List.filter]

/-! ## Claim theorems -/

/-- C1: for every name list whose length differs from the device-reported
outlet table size, `set_outlet_names` raises the validation error (the
source's `RuntimeError("Incorrect number of names.")`) and performs zero SET
calls against the transport. -/
theorem set_outlet_names_length_mismatch (t : Transport) (namelist : List String)
    (s : String) (z : Int)
    (hs : t.getResp "sPDUOutletConfigTableSize" "0" = some s)
    (hz : pyInt s = some z)
    (hne : (namelist.length : Int) ≠ z) :
    (set_outlet_names t namelist).1 =
      .error (.validationError "Incorrect number of names.")
    ∧ countSets (set_outlet_names t namelist).2 = 0 := by
  unfold set_outlet_names
  rw [hs]
  simp [hz, hne, countSets, List.filter, sizeReq, isSetReq]

/-- Witness for C1: a device reporting three outlets rejects a one-name list
with the validation error and issues no SET. -/
theorem set_outlet_names_length_mismatch_witness :
    agentA.getResp "sPDUOutletConfigTableSize" "0" = some "3"
    ∧ pyInt "3" = some 3
    ∧ ((["a"].length : Int) ≠ 3)
    ∧ (set_outlet_names agentA ["a"]).1 =
        .error (.validationError "Incorrect number of names.")
    ∧ countSets (set_outlet_names agentA ["a"]).2 = 0 :=
  ⟨by decide, by decide, by decide,
   (set_outlet_names_length_mismatch agentA ["a"] "3" 3 (by decide) (by decide)
     (by decide)).1,
   (set_outlet_names_length_mismatch agentA ["a"] "3" 3 (by decide) (by decide)
     (by decide)).2⟩

/-- C2: for a name list whose length equals the table size `N`,
`set_outlet_names` issues exactly one SET per outlet in index order `1..N`
(the trace is the size GET followed by exactly the per-index SETs, in
order), never aborts on an individual SET failure, and returns the mapping
whose keys are exactly `1..N` and whose value at each index is the boolean
the transport reported for that index's SET — so when exactly one SET
fails, exactly that index maps to `false`. -/
theorem set_outlet_names_ok (t : Transport) (namelist : List String)
    (s : String) (z : Int)
    (hs : t.getResp "sPDUOutletConfigTableSize" "0" = some s)
    (hz : pyInt s = some z)
    (heq : (namelist.length : Int) = z) :
    (set_outlet_names t namelist).1 =
      .ok (((List.range' 1 z.toNat).zip namelist).map
        (fun p => (p.1, t.setResp "sPDUOutletName" (toString p.1) p.2)))
    ∧ (set_outlet_names t namelist).2 =
        sizeReq :: ((List.range' 1 z.toNat).zip namelist).map (fun p => nameSetReq p.1 p.2)
    ∧ (((List.range' 1 z.toNat).zip namelist).map
        (fun p => (p.1, t.setResp "sPDUOutletName" (toString p.1) p.2))).map Prod.fst
        = List.range' 1 z.toNat := by
  have hlen : namelist.length = z.toNat := by omega
  refine ⟨?_, ?_, ?_⟩
  · unfold set_outlet_names
    rw [hs]
    simp [hz, heq, setNamesLoop_eq]
  · unfold set_outlet_names
    rw [hs]
    simp [hz, heq, setNamesLoop_eq]
  · rw [List.map_map]
    have : (Prod.fst ∘ fun p : Nat × String =>
        (p.1, t.setResp "sPDUOutletName" (toString p.1) p.2)) = Prod.fst := rfl
    rw [this, List.map_fst_zip]
    simp [hlen]

/-- Witness for C2: on a three-outlet device whose SET fails exactly at
outlet 2, the full rename proceeds through all three outlets and maps
exactly index 2 to `false`. -/
theorem set_outlet_names_ok_witness :
    (set_outlet_names agentA ["a", "b", "c"]).1 =
      .ok (((List.range' 1 (3 : Int).toNat).zip ["a", "b", "c"]).map
        (fun p => (p.1, agentA.setResp "sPDUOutletName" (toString p.1) p.2)))
    ∧ (set_outlet_names agentA ["a", "b", "c"]).1 = .ok [(1, true), (2, false), (3, true)] :=
  ⟨(set_outlet_names_ok agentA ["a", "b", "c"] "3" 3 (by decide) (by decide)
     (by decide)).1,
   by decide⟩

/-- C4: contrary to the claimed contract (one SET of the request object
constructed for the device-name object, then a re-read of the confirmed
name), `PDU.set_name` evaluates the unbound local `namevar` and raises
`NameError` on every input, issuing zero SETs and performing no re-read:
the constructed Varbind is never sent. -/
theorem set_name_unbound_local (t : Transport) (name : String) :
    set_name t name = (.error (.nameError "namevar"), []) := rfl

/-- C10: contrary to the claimed behaviour (rename attempted, then the
identity fetch overwrites the name attribute with the device-reported
name), a construction with a non-empty `name` argument always aborts inside
`set_name` with `NameError` before `_get_ident` runs: the trace is empty,
so the identity fetch never happens and no constructed instance exists. -/
theorem init_with_name_raises (t : Transport) (nm : String) (h : nm ≠ "") :
    PDU_init t (some nm) = (.error (.nameError "namevar"), []) := by
  simp [PDU_init, h, set_name, set_name_locals]

/-- Witness for C10: constructing against agent A with the non-empty name
"dto-pdu" aborts with `NameError` and issues no request at all. -/
theorem init_with_name_raises_witness :
    ("dto-pdu" : String) ≠ ""
    ∧ PDU_init agentA (some "dto-pdu") = (.error (.nameError "namevar"), []) :=
  ⟨by decide, init_with_name_raises agentA "dto-pdu" (by decide)⟩

/-- C7 counterexample: the table size is not cached.  On agent A, a call to
`get_outlet_names` (the first table-size query) followed by a call to
`set_outlet_names` performs a second GET of the outlet-config-table-size
object: the subsequent directory operation issues one further size GET,
not zero. -/
theorem table_size_cached_cex :
    countSizeGets (get_outlet_names agentA).2 = 1
    ∧ countSizeGets (set_outlet_names agentA ["a", "b", "c"]).2 = 1
    ∧ (1 : Nat) ≠ 0 := by decide

/-- C7 amended: every call to `get_outlet_names` and to `set_outlet_names`
issues exactly one fresh GET of the outlet-config-table-size object; the
value is never cached across directory operations. -/
theorem table_size_refetched (t : Transport) (namelist : List String) :
    countSizeGets (get_outlet_names t).2 = 1
    ∧ countSizeGets (set_outlet_names t namelist).2 = 1 := by
  constructor
  · unfold get_outlet_names
    rcases t.getResp "sPDUOutletConfigTableSize" "0" with _ | s
    · rfl
    · rcases h : pyInt s with _ | z
      · simp [h, countSizeGets, sizeReq, isSizeGet, List.filter]
      · rcases hg : getNamesLoop t (List.range' 1 z.toNat) with ⟨r, tr⟩
        have h0 := getNamesLoop_no_size_gets t (List.range' 1 z.toNat)
        rw [hg] at h0
        simp [h, hg, countSizeGets, List.filter, sizeReq, isSizeGet]
        simpa [countSizeGets, isSizeGet] using h0
  · unfold set_outlet_names
    rcases t.getResp "sPDUOutletConfigTableSize" "0" with _ | s
    · rfl
    · rcases h : pyInt s with _ | z
      · simp [h, countSizeGets, sizeReq, isSizeGet, List.filter]
      · have hcomp : (isSizeGet ∘ fun p : Nat × String => nameSetReq p.1 p.2)
            = fun _ => false := rfl
        by_cases hne : (namelist.length : Int) ≠ z
        · simp [h, hne, countSizeGets, sizeReq, isSizeGet, List.filter]
        · simp [h, hne, countSizeGets, sizeReq, isSizeGet, List.filter,
            setNamesLoop_eq, List.filter_map, hcomp]

/-- C3: `Outlet.get_state` decodes the numeric response through the fixed
table exactly — code 1 yields `(1, "on")`, 2 yields `(2, "off")`, 3 yields
`(3, "rebooting")`, 4 yields `(4, "error")` — and any numeric response
outside `{1,2,3,4}` fails with the protocol error carrying the offending
code (the source's `KeyError` on the fixed state table), never a coerced or
undefined label. -/
theorem get_state_decode (t : Transport) (number : String) (s : String) (c : Int)
    (hs : t.getResp "sPDUOutletCtl" number = some s)
    (hc : pyInt s = some c) :
    (Outlet.get_state t number).1 =
      (if c = 1 then .ok (1, "on")
       else if c = 2 then .ok (2, "off")
       else if c = 3 then .ok (3, "rebooting")
       else if c = 4 then .ok (4, "error")
       else .error (.protocolError c)) := by
  unfold Outlet.get_state
  rw [hs]
  simp only [hc, Outlet.state]
  split_ifs <;> simp_all

/-- Witness for C3: agent A's outlet 5 reports code 2 and decodes to
`(2, "off")`; agent C's outlet 1 reports the out-of-table code 7 and fails
with the protocol error. -/
theorem get_state_decode_witness :
    (Outlet.get_state agentA "5").1 = .ok (2, "off")
    ∧ (Outlet.get_state agentC "1").1 = .error (.protocolError 7) :=
  ⟨by simpa using get_state_decode agentA "5" "2" 2 (by decide) (by decide),
   by simpa using get_state_decode agentC "1" "7" 7 (by decide) (by decide)⟩

/-- C6: `Outlet.set_state` maps `true` to protocol code 1 and `false` to
code 2, issues exactly one SET (with the write community), then re-reads
the state (the trace continues with `get_state`'s GET), and — whenever the
re-read decodes to any valid state `p` — returns exactly the boolean the
SET call itself reported, independently of `p`. -/
theorem set_state_spec (t : Transport) (number : String) (b : Bool) (p : Int × String)
    (hre : (Outlet.get_state t number).1 = .ok p) :
    (Outlet.set_state t number b).1 =
      .ok (t.setResp "sPDUOutletCtl" number (toString (if b then (1 : Int) else 2)))
    ∧ (Outlet.set_state t number b).2 =
        Req.set "sPDUOutletCtl" number (toString (if b then (1 : Int) else 2)) "private"
          :: (Outlet.get_state t number).2
    ∧ countSets (Outlet.set_state t number b).2 = 1 := by
  have htr := get_state_trace t number
  have hpair : Outlet.get_state t number =
      (.ok p, [Req.get "sPDUOutletCtl" number "public"]) := by
    rcases hgs : Outlet.get_state t number with ⟨r, tr⟩
    rw [hgs] at hre htr
    simp at hre htr
    simp [hre, htr]
  refine ⟨?_, ?_, ?_⟩
  · unfold Outlet.set_state
    rw [hpair]
  · unfold Outlet.set_state
    rw [hpair]
  · unfold Outlet.set_state
    rw [hpair]
    simp [countSets, isSetReq, List.filter]

/-- Witness for C6: turning agent A's outlet 5 on — the re-read still
decodes to `(2, "off")`, not the requested target, yet the return value is
the SET call's own success report (`true`). -/
theorem set_state_spec_witness :
    (Outlet.get_state agentA "5").1 = .ok ((2 : Int), "off")
    ∧ (Outlet.set_state agentA "5" true).1 =
        .ok (agentA.setResp "sPDUOutletCtl" "5" (toString (if true then (1 : Int) else 2)))
    ∧ (Outlet.set_state agentA "5" true).1 = .ok true :=
  ⟨by decide,
   (set_state_spec agentA "5" true (2, "off") (by decide)).1,
   by decide⟩

/-- C5: identity construction is atomic.  When all six identity GETs
answer, `_get_ident` issues exactly the six GETs (model, serial, hardware
revision, firmware revision, manufacture date, device name, in order, each
at instance 0) and returns the full record; when any of the six objects
fails, the whole construction fails with a transport error naming one of
the identity objects, and no identity record — hence no subset of identity
attributes — is produced. -/
theorem get_ident_atomic (t : Transport) :
    (∀ m s hw fw d nm,
       t.getResp "sPDUIdentModelNumber" "0" = some m →
       t.getResp "sPDUIdentSerialNumber" "0" = some s →
       t.getResp "sPDUIdentHardwareRev" "0" = some hw →
       t.getResp "sPDUIdentFirmwareRev" "0" = some fw →
       t.getResp "sPDUIdentDateOfManufacture" "0" = some d →
       t.getResp "sPDUMasterConfigPDUName" "0" = some nm →
       get_ident t = (.ok ⟨m, s, hw, fw, d, nm⟩,
                      identTags.map (fun tag => Req.get tag "0" "public")))
    ∧ ((∃ tag ∈ identTags, t.getResp tag "0" = none) →
       (∃ tag ∈ identTags,
          (get_ident t).1 = .error (.transportError (Req.get tag "0" "public")))
       ∧ ∀ r, (get_ident t).1 ≠ .ok r) := by
  constructor
  · intro m s hw fw d nm h1 h2 h3 h4 h5 h6
    unfold get_ident seqGet get_var
    rw [h1, h2, h3, h4, h5, h6]
    simp [identTags]
  · intro hex
    have key : (∃ tag ∈ identTags,
          (get_ident t).1 = .error (.transportError (Req.get tag "0" "public"))) := by
      unfold get_ident seqGet get_var
      rcases ha : t.getResp "sPDUIdentModelNumber" "0" with _ | m
      · exact ⟨"sPDUIdentModelNumber", by simp [identTags], by simp [ha]⟩
      rcases hb : t.getResp "sPDUIdentSerialNumber" "0" with _ | s
      · exact ⟨"sPDUIdentSerialNumber", by simp [identTags], by simp [ha, hb]⟩
      rcases hc : t.getResp "sPDUIdentHardwareRev" "0" with _ | hw
      · exact ⟨"sPDUIdentHardwareRev", by simp [identTags], by simp [ha, hb, hc]⟩
      rcases hd : t.getResp "sPDUIdentFirmwareRev" "0" with _ | fw
      · exact ⟨"sPDUIdentFirmwareRev", by simp [identTags], by simp [ha, hb, hc, hd]⟩
      rcases he : t.getResp "sPDUIdentDateOfManufacture" "0" with _ | d
      · exact ⟨"sPDUIdentDateOfManufacture", by simp [identTags],
          by simp [ha, hb, hc, hd, he]⟩
      rcases hf : t.getResp "sPDUMasterConfigPDUName" "0" with _ | nm
      · exact ⟨"sPDUMasterConfigPDUName", by simp [identTags],
          by simp [ha, hb, hc, hd, he, hf]⟩
      · exfalso
        rcases hex with ⟨tag, htag, hnone⟩
        simp [identTags] at htag
        rcases htag with rfl | rfl | rfl | rfl | rfl | rfl <;> simp_all
    refine ⟨key, ?_⟩
    rcases key with ⟨tag, htag, herr⟩
    intro r hok
    rw [hok] at herr
    exact Except.noConfusion herr

/-- Witness for C5: against agent A all six identity GETs answer, and the
construction returns the full record having issued exactly the six GETs. -/
theorem get_ident_atomic_witness :
    get_ident agentA =
      (.ok ⟨"v-sPDUIdentModelNumber", "v-sPDUIdentSerialNumber",
            "v-sPDUIdentHardwareRev", "v-sPDUIdentFirmwareRev",
            "v-sPDUIdentDateOfManufacture", "v-sPDUMasterConfigPDUName"⟩,
       identTags.map (fun tag => Req.get tag "0" "public")) :=
  (get_ident_atomic agentA).1 "v-sPDUIdentModelNumber" "v-sPDUIdentSerialNumber"
    "v-sPDUIdentHardwareRev" "v-sPDUIdentFirmwareRev"
    "v-sPDUIdentDateOfManufacture" "v-sPDUMasterConfigPDUName"
    (by decide) (by decide) (by decide) (by decide) (by decide) (by decide)

/-- The per-outlet GET loop, when it returns a mapping, visited exactly the
given indices in order: the keys are the index list, the trace is one
display-name GET per index, and each value is the transport's answer for
that index. -/
theorem getNamesLoop_ok (t : Transport) :
    ∀ (l : List Nat) (m : List (Nat × String)),
      (getNamesLoop t l).1 = .ok m →
      m.map Prod.fst = l ∧ (getNamesLoop t l).2 = l.map nameGetReq
      ∧ ∀ p ∈ m, t.getResp "sPDUOutletCtlName" (toString p.1) = some p.2 := by
  intro l
  induction l with
  | nil =>
    intro m hm
    simp [getNamesLoop] at hm
    subst hm
    simp [getNamesLoop]
  | cons i rest ih =>
    intro m hm
    rcases hi : t.getResp "sPDUOutletCtlName" (toString i) with _ | v
    · simp [getNamesLoop, hi] at hm
    · rcases hrec : getNamesLoop t rest with ⟨r, tr⟩
      rcases r with e | m'
      · simp [getNamesLoop, hi, hrec] at hm
      · simp [getNamesLoop, hi, hrec] at hm
        subst hm
        obtain ⟨k1, k2, k3⟩ := ih m' (by rw [hrec])
        rw [hrec] at k2
        simp at k2
        refine ⟨by simp [k1], ?_, ?_⟩
        · simp [getNamesLoop, hi, hrec, k2]
        · intro p hp
          rcases List.mem_cons.mp hp with hp1 | hp1
          · subst hp1; exact hi
          · exact k3 p hp1

/-- The per-outlet GET loop over `range' s n` aborts with the transport
error of the first failing index: if the GET at `i` fails and every index
before `i` answers, the loop's result is exactly that error. -/
theorem getNamesLoop_fail_range (t : Transport) (i : Nat)
    (hi : t.getResp "sPDUOutletCtlName" (toString i) = none) :
    ∀ (n s : Nat), s ≤ i → i < s + n →
      (∀ j, s ≤ j → j < i → (t.getResp "sPDUOutletCtlName" (toString j)).isSome) →
      (getNamesLoop t (List.range' s n)).1 =
        .error (.transportError (nameGetReq i)) := by
  intro n
  induction n with
  | zero =>
    intro s hsi hin _
    omega
  | succ k ih =>
    intro s hsi hin hbefore
    rw [List.range'_succ]
    rcases Nat.eq_or_lt_of_le hsi with heq | hlt
    · subst heq
      simp [getNamesLoop, hi]
    · have hsome := hbefore s le_rfl hlt
      rcases hs : t.getResp "sPDUOutletCtlName" (toString s) with _ | v
      · rw [hs] at hsome; simp at hsome
      · rcases hg : getNamesLoop t (List.range' (s + 1) k) with ⟨r, tr⟩
        have hrec := ih (s + 1) (by omega) (by omega)
          (fun j hj1 hj2 => hbefore j (by omega) hj2)
        rw [hg] at hrec
        simp at hrec
        simp [getNamesLoop, hs, hg, hrec]

/-- C8: `get_outlet_names` — when it returns a mapping, the keys are
exactly the indices `1..tableSize` in order, built by one GET per outlet's
display-name identifier (the trace is the size GET followed by exactly one
display-name GET per index), each value being the device's answer; and when
a single display-name GET fails (every earlier index answering), the whole
call fails with the transport error tagged with that index's request, so no
partial mapping is returned. -/
theorem get_outlet_names_spec (t : Transport) (s : String) (z : Int)
    (hs : t.getResp "sPDUOutletConfigTableSize" "0" = some s)
    (hz : pyInt s = some z) :
    (∀ m, (get_outlet_names t).1 = .ok m →
        m.map Prod.fst = List.range' 1 z.toNat
        ∧ (get_outlet_names t).2 = sizeReq :: (List.range' 1 z.toNat).map nameGetReq
        ∧ ∀ p ∈ m, t.getResp "sPDUOutletCtlName" (toString p.1) = some p.2)
    ∧ (∀ i, i ∈ List.range' 1 z.toNat →
        t.getResp "sPDUOutletCtlName" (toString i) = none →
        (∀ j ∈ List.range' 1 z.toNat, j < i →
            (t.getResp "sPDUOutletCtlName" (toString j)).isSome) →
        (get_outlet_names t).1 = .error (.transportError (nameGetReq i))) := by
  have hshape : get_outlet_names t =
      ((getNamesLoop t (List.range' 1 z.toNat)).1,
       sizeReq :: (getNamesLoop t (List.range' 1 z.toNat)).2) := by
    unfold get_outlet_names
    rw [hs]
    simp only [hz]
  constructor
  · intro m hm
    rw [hshape] at hm
    simp at hm
    obtain ⟨k1, k2, k3⟩ := getNamesLoop_ok t (List.range' 1 z.toNat) m hm
    exact ⟨k1, by rw [hshape]; simp [k2], k3⟩
  · intro i hmem hfail hbefore
    rw [hshape]
    have hm := List.mem_range'_1.mp hmem
    exact getNamesLoop_fail_range t i hfail z.toNat 1 hm.1 hm.2
      (fun j hj1 hj2 => hbefore j (List.mem_range'_1.mpr ⟨hj1, by omega⟩) hj2)

/-- Witness for C8: on agent C (two outlets, display-name GET failing at
outlet 2 with outlet 1 answering), `get_outlet_names` fails whole with the
transport error tagged with outlet 2's request. -/
theorem get_outlet_names_spec_witness :
    (2 : Nat) ∈ List.range' 1 (2 : Int).toNat
    ∧ agentC.getResp "sPDUOutletCtlName" (toString (2 : Nat)) = none
    ∧ (get_outlet_names agentC).1 = .error (.transportError (nameGetReq 2)) :=
  ⟨by decide, by decide,
   (get_outlet_names_spec agentC "2" 2 (by decide) (by decide)).2 2
     (by decide) (by decide) (by decide)⟩

/-- The trace of a sequenced identity GET: the GET itself, then — only when
the GET answered — whatever the continuation issues. -/
theorem seqGet_trace {α : Type} (t : Transport) (tag : String)
    (k : String → Except Err α × List Req) :
    (seqGet t tag k).2 =
      Req.get tag "0" "public" ::
        (match t.getResp tag "0" with
         | none => []
         | some v => (k v).2) := by
  unfold seqGet get_var
  rcases h : t.getResp tag "0" with _ | v
  · simp
  · dsimp only
    rcases hk2 : k v with ⟨r2, tr2⟩
    simp

/-- A property holding of the sequenced GET's own request and of every
request of every continuation holds of every request in the trace. -/
theorem seqGet_good {α : Type} (t : Transport) (tag : String)
    (k : String → Except Err α × List Req) (P : Req → Prop)
    (hP : P (Req.get tag "0" "public"))
    (hk : ∀ v, ∀ r ∈ (k v).2, P r) :
    ∀ r ∈ (seqGet t tag k).2, P r := by
  intro r hr
  rw [seqGet_trace] at hr
  rcases h : t.getResp tag "0" with _ | v
  · rw [h] at hr
    simp at hr
    subst hr
    exact hP
  · rw [h] at hr
    simp at hr
    rcases hr with hr | hr
    · subst hr
      exact hP
    · exact hk v r hr

/-- Every request issued by the identity fetch carries the fixed community
of its kind (all six are GETs with "public"). -/
theorem get_ident_good (t : Transport) :
    ∀ r ∈ (get_ident t).2,
      reqCommunity r = (if isSetReq r then "private" else "public") := by
  unfold get_ident
  refine seqGet_good t _ _ _ (by simp [reqCommunity, isSetReq]) ?_
  intro v1
  refine seqGet_good t _ _ _ (by simp [reqCommunity, isSetReq]) ?_
  intro v2
  refine seqGet_good t _ _ _ (by simp [reqCommunity, isSetReq]) ?_
  intro v3
  refine seqGet_good t _ _ _ (by simp [reqCommunity, isSetReq]) ?_
  intro v4
  refine seqGet_good t _ _ _ (by simp [reqCommunity, isSetReq]) ?_
  intro v5
  refine seqGet_good t _ _ _ (by simp [reqCommunity, isSetReq]) ?_
  intro v6 r hr
  simp at hr

/-- Every request issued by the per-outlet GET loop is a display-name GET. -/
theorem getNamesLoop_reqs (t : Transport) :
    ∀ (l : List Nat), ∀ r ∈ (getNamesLoop t l).2, ∃ i, r = nameGetReq i := by
  intro l
  induction l with
  | nil =>
    intro r hr
    simp [getNamesLoop] at hr
  | cons i rest ih =>
    intro r hr
    rcases hi : t.getResp "sPDUOutletCtlName" (toString i) with _ | v
    · simp [getNamesLoop, hi] at hr
      exact ⟨i, hr⟩
    · rcases hrec : getNamesLoop t rest with ⟨res, tr⟩
      rcases res with e | m'
      · simp [getNamesLoop, hi, hrec] at hr
        rcases hr with hr | hr
        · exact ⟨i, hr⟩
        · exact ih r (by rw [hrec]; exact hr)
      · simp [getNamesLoop, hi, hrec] at hr
        rcases hr with hr | hr
        · exact ⟨i, hr⟩
        · exact ih r (by rw [hrec]; exact hr)

/-- `Outlet.set_state` always issues its SET first and then `get_state`'s
GET, whatever the outcomes. -/
theorem set_state_trace (t : Transport) (number : String) (b : Bool) :
    (Outlet.set_state t number b).2 =
      Req.set "sPDUOutletCtl" number (toString (if b then (1 : Int) else 2)) "private"
        :: (Outlet.get_state t number).2 := by
  unfold Outlet.set_state
  rcases hgs : Outlet.get_state t number with ⟨r, tr⟩
  rcases r with e | p <;> simp

/-- `_get_var` always issues exactly its one GET with community "public". -/
theorem get_var_reqs (t : Transport) (tag iid : String) :
    ∀ r ∈ (get_var t tag iid).2, r = Req.get tag iid "public" := by
  intro r hr
  unfold get_var at hr
  rcases h : t.getResp tag iid with _ | v <;> simp [h] at hr <;> exact hr

/-- `get_outlet_states` issues exactly the requests of its one `_get_var`. -/
theorem get_outlet_states_trace (t : Transport) :
    (get_outlet_states t).2 = (get_var t "sPDUMasterState" "0").2 := by
  unfold get_outlet_states
  rcases h : get_var t "sPDUMasterState" "0" with ⟨r, tr⟩
  rcases r with e | v <;> simp

/-- `get_pending` issues exactly the requests of its one `_get_var`. -/
theorem get_pending_trace (t : Transport) :
    (get_pending t).2 = (get_var t "sPDUMasterPending" "0").2 := by
  unfold get_pending
  rcases h : get_var t "sPDUMasterPending" "0" with ⟨r, tr⟩
  rcases r with e | v <;> simp

/-- `Outlet.get_name` always issues exactly its one display-name GET. -/
theorem get_name_trace (t : Transport) (number : String) :
    (Outlet.get_name t number).2 = [Req.get "sPDUOutletCtlName" number "public"] := by
  unfold Outlet.get_name
  rcases h : t.getResp "sPDUOutletCtlName" number with _ | v <;> simp

/-- `Outlet.set_name` always issues its SET first and then `get_name`'s
GET, whatever the outcomes. -/
theorem outlet_set_name_trace (t : Transport) (number nm : String) :
    (Outlet.set_name t number nm).2 =
      Req.set "sPDUOutletName" number nm "private"
        :: (Outlet.get_name t number).2 := by
  unfold Outlet.set_name
  rcases h : Outlet.get_name t number with ⟨r, tr⟩
  rcases r with e | v <;> simp

/-- C9 counterexample: credentials are not supplied by configuration.  Two
deployments against distinct agents (A and B) — the only configurable
inputs, since no credential parameter exists anywhere in the core — produce
requests carrying the identical fixed strings "public" (every GET) and
"private" (every SET); no configuration can make their credentials
differ. -/
theorem hardcoded_credentials_cex :
    (set_outlet_names agentA ["a", "b", "c"]).2.map reqCommunity
        = ["public", "private", "private", "private"]
    ∧ (set_outlet_names agentB ["a", "b"]).2.map reqCommunity
        = ["public", "private", "private"]
    ∧ (get_ident agentA).2.map reqCommunity
        = ["public", "public", "public", "public", "public", "public"] := by decide

/-- C9 amended: in every operation of the core — the identity helpers
(`_get_var`, `_get_ident`), device rename, construction, the master status
reads (`get_outlet_states`, `get_pending`), the outlet directory
(`get_outlet_names`, `set_outlet_names`) and the per-outlet operations
(`get_name`, `set_name`, `get_state`, `set_state`) — every GET request
carries the hardcoded community "public" and every SET request the
hardcoded community "private", for every transport, name list, outlet and
argument: the credential strings are fixed literals, not configuration. -/
theorem hardcoded_credentials (t : Transport) (namelist : List String)
    (number : String) (b : Bool) (tag iid nm : String) (onm : Option String) (r : Req)
    (hr : r ∈ (get_var t tag iid).2 ∨ r ∈ (get_ident t).2
      ∨ r ∈ (set_name t nm).2 ∨ r ∈ (PDU_init t onm).2
      ∨ r ∈ (get_outlet_states t).2 ∨ r ∈ (get_pending t).2
      ∨ r ∈ (get_outlet_names t).2 ∨ r ∈ (set_outlet_names t namelist).2
      ∨ r ∈ (Outlet.get_name t number).2 ∨ r ∈ (Outlet.set_name t number nm).2
      ∨ r ∈ (Outlet.get_state t number).2 ∨ r ∈ (Outlet.set_state t number b).2) :
    reqCommunity r = (if isSetReq r then "private" else "public") := by
  rcases hr with hr | hr | hr | hr | hr | hr | hr | hr | hr | hr | hr | hr
  · obtain rfl := get_var_reqs t tag iid r hr
    simp [reqCommunity, isSetReq]
  · exact get_ident_good t r hr
  · simp [set_name, set_name_locals] at hr
  · rcases onm with _ | nm2
    · simp only [PDU_init] at hr
      exact get_ident_good t r hr
    · by_cases h0 : nm2 = ""
      · simp only [PDU_init, h0, if_pos] at hr
        exact get_ident_good t r hr
      · simp [PDU_init, h0, set_name, set_name_locals] at hr
  · rw [get_outlet_states_trace] at hr
    obtain rfl := get_var_reqs t "sPDUMasterState" "0" r hr
    simp [reqCommunity, isSetReq]
  · rw [get_pending_trace] at hr
    obtain rfl := get_var_reqs t "sPDUMasterPending" "0" r hr
    simp [reqCommunity, isSetReq]
  · rcases h1 : t.getResp "sPDUOutletConfigTableSize" "0" with _ | s
    · simp [get_outlet_names, h1] at hr
      subst hr
      simp [sizeReq, reqCommunity, isSetReq]
    · rcases h2 : pyInt s with _ | z
      · simp [get_outlet_names, h1, h2] at hr
        subst hr
        simp [sizeReq, reqCommunity, isSetReq]
      · rcases hg : getNamesLoop t (List.range' 1 z.toNat) with ⟨res, tr⟩
        simp [get_outlet_names, h1, h2, hg] at hr
        rcases hr with hr | hr
        · subst hr
          simp [sizeReq, reqCommunity, isSetReq]
        · obtain ⟨i, rfl⟩ := getNamesLoop_reqs t (List.range' 1 z.toNat) r
            (by rw [hg]; exact hr)
          simp [nameGetReq, reqCommunity, isSetReq]
  · rcases h1 : t.getResp "sPDUOutletConfigTableSize" "0" with _ | s
    · simp [set_outlet_names, h1] at hr
      subst hr
      simp [sizeReq, reqCommunity, isSetReq]
    · rcases h2 : pyInt s with _ | z
      · simp [set_outlet_names, h1, h2] at hr
        subst hr
        simp [sizeReq, reqCommunity, isSetReq]
      · by_cases hne : (namelist.length : Int) ≠ z
        · simp [set_outlet_names, h1, h2, hne] at hr
          subst hr
          simp [sizeReq, reqCommunity, isSetReq]
        · simp [set_outlet_names, h1, h2, hne, setNamesLoop_eq] at hr
          rcases hr with hr | hr
          · subst hr
            simp [sizeReq, reqCommunity, isSetReq]
          · obtain ⟨p, pnm, hmem, heq⟩ := hr
            subst heq
            simp [nameSetReq, reqCommunity, isSetReq]
  · rw [get_name_trace t number] at hr
    simp at hr
    subst hr
    simp [reqCommunity, isSetReq]
  · rw [outlet_set_name_trace t number nm] at hr
    simp at hr
    rcases hr with hr | hr
    · subst hr
      simp [reqCommunity, isSetReq]
    · rw [get_name_trace t number] at hr
      simp at hr
      subst hr
      simp [reqCommunity, isSetReq]
  · rw [get_state_trace t number] at hr
    simp at hr
    subst hr
    simp [reqCommunity, isSetReq]
  · rw [set_state_trace t number b] at hr
    simp at hr
    rcases hr with hr | hr
    · subst hr
      simp [reqCommunity, isSetReq]
    · rw [get_state_trace t number] at hr
      simp at hr
      subst hr
      simp [reqCommunity, isSetReq]

/-- Witness for C9 amended: the size GET issued by `get_outlet_names`
against agent A carries the fixed community "public". -/
theorem hardcoded_credentials_witness :
    sizeReq ∈ (get_outlet_names agentA).2
    ∧ reqCommunity sizeReq = (if isSetReq sizeReq then "private" else "public")
    ∧ reqCommunity sizeReq = "public" :=
  ⟨by decide,
   hardcoded_credentials agentA [] "1" true "tag" "0" "n" none sizeReq
     (Or.inr (Or.inr (Or.inr (Or.inr (Or.inr (Or.inr (Or.inl (by decide)))))))),
   by decide⟩

end APCPDU
